import Mathlib

/-!
Verification of the doppio_frappeui_starter frontend scaffold.

The repository is a Vue/Vite frontend starter whose visible weight is its test
suite (`tests/build.test.js`, `tests/integration.test.js`, `tests/setup.js`,
`vitest.config.js`).  The application modules themselves (`src/socket.js`,
`src/router.js`, `vite.config.js`, `package.json`) are referenced by the tests
but their sources are not part of the provided tree; where a claim depends on
them, the corresponding definition is modelled from the specification and is
marked as such in its doc comment.

The development embeds:
* the semver-range major extraction and the vite / @vitejs/plugin-vue
  compatibility check from the test "should validate vite plugin compatibility";
* the try/catch structure of the build-failure message test;
* the beforeAll / afterAll lifecycle of the build-process suite over a flat
  file-system model;
* a socket-bridge state machine (initSocket / useSocket) and a static route
  table, both modelled from the specification;
* the production build outcome as a function of host-configuration presence,
  modelled from the specification.
-/

namespace Doppio

/-! ## Semver-range handling (embedded from tests/build.test.js,
"Package Version Compatibility Testing") -/

/-- Embeds `version.replace(/^[\^~]/, "")`: removes a single leading caret or
tilde from a semver range, leaving anything else untouched. -/
def stripRangeMarker : List Char → List Char
  | [] => []
  | c :: rest => if c = '^' ∨ c = '~' then rest else c :: rest

/-- Decimal value of a digit run, as `Number.parseInt` computes it on the
matched group of `/^(\d+)/`. -/
def digitsToNat (ds : List Char) : Nat :=
  ds.foldl (fun acc c => 10 * acc + (c.toNat - 48)) 0

/-- Embeds `version.replace(/^[\^~]/, "").match(/^(\d+)/)` followed by
`Number.parseInt`: the major version is the leading digit run of the stripped
range; `none` when the stripped range does not start with a digit (the regex
match is null). -/
def semverMajor (s : String) : Option Nat :=
  let ds := (stripRangeMarker s.toList).takeWhile Char.isDigit
  if ds.isEmpty then none else some (digitsToNat ds)

/-- Embeds the test "should validate vite plugin compatibility"
(tests/build.test.js): extract both majors, fail the `toBeTruthy` expectation
when a range does not parse, and otherwise throw exactly when
`viteMajor >= 5 && vuePluginMajor < 5`. -/
def validatePluginCompat (viteRange vuePluginRange : String) : Except String Unit :=
  match semverMajor viteRange with
  | none => .error "expected viteMatch to be truthy"
  | some viteMajor =>
    match semverMajor vuePluginRange with
    | none => .error "expected vuePluginMatch to be truthy"
    | some vuePluginMajor =>
      if 5 ≤ viteMajor ∧ vuePluginMajor < 5 then
        .error ("Vite v" ++ toString viteMajor ++
          " requires @vitejs/plugin-vue v5+, but found v" ++ toString vuePluginMajor)
      else
        .ok ()

/-- Modelled from the spec: package.json is not among the provided sources; the
spec states the declared range for the bundler plugin (vite) is major-version
aligned with the UI framework plugin, and the test comment gives the shape
`"^5.4.10"`. -/
def declaredViteRange : String := "^5.4.10"

/-- Modelled from the spec: package.json is not among the provided sources; the
declared range for the UI framework plugin (@vitejs/plugin-vue), major-version
aligned with the bundler plugin's range. -/
def declaredVuePluginRange : String := "^5.2.1"

end Doppio

namespace Doppio

/-- The check accepts the declared ranges: both majors parse to 5. -/
example : semverMajor declaredViteRange = some 5 := by decide

example : validatePluginCompat declaredViteRange declaredVuePluginRange = .ok () := rfl

example : validatePluginCompat "^5.0.0" "^4.5.2" =
    .error "Vite v5 requires @vitejs/plugin-vue v5+, but found v4" := rfl

example : validatePluginCompat "~6.1" "7.0.0" = .ok () := rfl

example : validatePluginCompat "latest" "^5.0.0" = .error "expected viteMatch to be truthy" := rfl

/-! ## Substring references in error messages -/

/-- `expect(msg).toContain(part)`: `part` occurs contiguously inside `msg`. -/
def mentions (msg part : String) : Prop :=
  part.toList <:+: msg.toList

instance (msg part : String) : Decidable (mentions msg part) :=
  inferInstanceAs (Decidable (part.toList <:+: msg.toList))

/-! ## The production build, as a function of the deployment environment -/

/-- Modelled from the spec: src/socket.js is not among the provided sources; per
the spec and the tests, the socket module references this fixed relative path
for the host-supplied configuration file. -/
def socketConfigPath : String := "../../../../sites/common_site_config.json"

/-- The configured output directory of the production build, as asserted on
vite.config.js by the test "should use correct output directory from vite
config". -/
def outputDir : String := "../<app-name>/public/frontend"

/-- A deployment environment, abstracted to which files are present in it. -/
structure BuildEnv where
  present : String → Bool

/-- The artifact of a successful build: files placed under a directory. -/
structure BuildOutput where
  dir : String

/-- Modelled from the spec: the production build (`yarn build` / `vite build`)
is performed by the external bundler, whose sources are out of scope.  Per the
spec, the build resolves the socket module's import of the host configuration
file: when the file is present and valid the build succeeds and places its
output under the configured output directory, and when it is absent the build
fails with a "Could not resolve" error naming the missing path and the
importing module src/socket.js. -/
def runBuild (env : BuildEnv) : Except String BuildOutput :=
  if env.present socketConfigPath then
    .ok ⟨outputDir⟩
  else
    .error ("Could not resolve \"" ++ socketConfigPath ++ "\" from src/socket.js")

/-! ## The build-failure message test (embedded from tests/build.test.js,
"should fail with specific error about missing common_site_config.json") -/

/-- Outcome of a single vitest test. -/
inductive TestOutcome where
  | passed
  | failed (msg : String)
deriving DecidableEq

/-- Embeds the try/catch structure of the test: run `yarn build`; only when it
throws do the three `toContain` expectations on the error message run; when the
build succeeds the catch branch is skipped and the test ends with no
assertions. -/
def specificErrorTest (buildRun : Except String BuildOutput) : TestOutcome :=
  match buildRun with
  | .ok _ => .passed
  | .error msg =>
    if mentions msg "Could not resolve" ∧ mentions msg "common_site_config.json" ∧
        mentions msg "src/socket.js" then
      .passed
    else
      .failed "expectation on the build error message failed"

/-! ## Socket bridge (modelled from the spec: src/socket.js is not among the
provided sources) -/

/-- Session configuration read from the host configuration file: connection
parameters per the spec's data model (host, port, protocol, site identifier,
authentication token). -/
structure SocketConfig where
  host : String
  port : Nat
  protocol : String
  siteName : String
  token : String
deriving DecidableEq

/-- A client connection object.  The creation index distinguishes distinct
constructed objects, so that "at most one handle exists" is a statement about
object identity rather than a tautology of the `Option` type. -/
structure SocketHandle where
  config : SocketConfig
  creationIndex : Nat
deriving DecidableEq

/-- Module-level state of the socket bridge: the shared handle, the session
configuration loaded from the host file, and a ghost count of how many client
objects have been constructed in this process. -/
structure SocketState where
  socket : Option SocketHandle
  loadedConfig : Option SocketConfig
  created : Nat
deriving DecidableEq

/-- State at process start: nothing initialized, nothing constructed. -/
def initialSocketState : SocketState := ⟨none, none, 0⟩

/-- Modelled from the spec: `initSocket(config)` constructs a client connection
object from the connection parameters and stores it as the shared handle; the
shared object is "lazily created on first request, reused thereafter", so a
request that finds an existing handle returns it unchanged. -/
def initSocket (s : SocketState) (c : SocketConfig) : SocketState × SocketHandle :=
  match s.socket with
  | some h => (s, h)
  | none =>
    let h : SocketHandle := ⟨c, s.created⟩
    (⟨some h, some c, s.created + 1⟩, h)

/-- Modelled from the spec: `useSocket()` returns the previously initialized
shared connection handle, or `none` (undefined) when `initSocket` has not run. -/
def useSocket (s : SocketState) : Option SocketHandle := s.socket

/-- An event in the life of the socket bridge within one process. -/
inductive SocketOp where
  | init (c : SocketConfig)
  | use
deriving DecidableEq

/-- Runs a sequence of socket-bridge events from a state.  `use` reads the
shared handle and does not change the state. -/
def runOps (s : SocketState) : List SocketOp → SocketState
  | [] => s
  | .init c :: rest => runOps (initSocket s c).1 rest
  | .use :: rest => runOps s rest

/-! ## Route table (modelled from the spec: src/router.js is not among the
provided sources) -/

/-- The two page views of the application. -/
inductive Page where
  | home
  | login
deriving DecidableEq

/-- One entry of the static route table. -/
structure Route where
  path : String
  component : Page
deriving DecidableEq

/-- Modelled from the spec: the router maps `/` to the Home page and `/login`
to the Login page, and no other paths are defined. -/
def routes : List Route := [⟨"/", .home⟩, ⟨"/login", .login⟩]

/-- Resolves a path against the static route table. -/
def matchRoute (p : String) : Option Page :=
  (routes.find? (fun r => r.path = p)).map Route.component

/-! ## The build-suite lifecycle (embedded from tests/build.test.js,
beforeAll / afterAll) -/

/-- A flat file system: each path stands for the whole entry rooted there
(`fs.rmSync(..., \x7b recursive: true, force: true \x7d)` removes that entry),
mapping to its byte content when it exists. -/
def FS := String → Option String

/-- `fs.writeFileSync(p, content)`. -/
def fsWrite (fs : FS) (p content : String) : FS :=
  fun q => if q = p then some content else fs q

/-- `fs.rmSync(p, ...)` on the flat model: the entry at `p` is gone. -/
def fsRemove (fs : FS) (p : String) : FS :=
  fun q => if q = p then none else fs q

/-- `fs.existsSync(p)`. -/
def fsExists (fs : FS) (p : String) : Bool := (fs p).isSome

/-- The workspace's package.json, read and restored by the suite hooks. -/
def packageJsonPath : String := "package.json"

/-- The build output path tracked by the suite.  In the source it is
`path.resolve(process.cwd(), "../<app-name>/public/frontend")`; with a fixed
working directory the resolution is modelled by the relative path itself. -/
def buildOutputPath : String := "../<app-name>/public/frontend"

/-- Embeds `beforeAll`: `fs.readFileSync("package.json", "utf8")` stores the
original content for restoration; `readFileSync` throws when the file is
absent, hence `none` in that case. -/
def beforeAllHook (fs : FS) : Option String := fs packageJsonPath

/-- Embeds `afterAll`: remove the build output entry when it exists, then
write the saved original content back to package.json. -/
def afterAllHook (fs : FS) (originalPackageJson : String) : FS :=
  let fs1 := if fsExists fs buildOutputPath then fsRemove fs buildOutputPath else fs
  fsWrite fs1 packageJsonPath originalPackageJson

/-- The whole suite run: `beforeAll`, then the test body (an arbitrary
transformation of the file system), then `afterAll`; `none` when `beforeAll`
already threw. -/
def runSuite (fs : FS) (body : FS → FS) : Option FS :=
  (beforeAllHook fs).map (fun saved => afterAllHook (body fs) saved)

/-- A sample one-file file system used to instantiate the lifecycle theorem. -/
def sampleFS : FS :=
  fun p => if p = packageJsonPath then some "original content" else none

/-- A sample connection configuration used to instantiate socket theorems. -/
def sampleConfig : SocketConfig :=
  ⟨"localhost", 3000, "http:", "test-site", "secret"⟩

/-- A deployment with no files at all: a standalone checkout without the host's
sites directory. -/
def emptyEnv : BuildEnv := ⟨fun _ => false⟩

/-- A deployment where every referenced file is present: a full host
deployment. -/
def fullEnv : BuildEnv := ⟨fun _ => true⟩

/-! ## Helper lemmas on the socket bridge -/

/-- Invariant of reachable socket states: at most one client object has been
constructed, and while the shared handle is absent nothing was constructed and
no configuration was loaded. -/
def SocketInv (s : SocketState) : Prop :=
  s.created ≤ 1 ∧ (s.socket = none → s.created = 0 ∧ s.loadedConfig = none)

theorem socketInv_initial : SocketInv initialSocketState :=
  ⟨Nat.zero_le 1, fun _ => ⟨rfl, rfl⟩⟩

theorem runOps_socket_stable (ops : List SocketOp) (s : SocketState) (h : SocketHandle)
    (hs : s.socket = some h) : runOps s ops = s := by
  induction ops with
  | nil => rfl
  | cons op rest ih =>
    cases op with
    | use => simpa [runOps] using ih
    | init c => simpa [runOps, initSocket, hs] using ih

theorem socketInv_runOps (ops : List SocketOp) (s : SocketState) (h : SocketInv s) :
    SocketInv (runOps s ops) := by
  induction ops generalizing s with
  | nil => exact h
  | cons op rest ih =>
    cases op with
    | use => exact ih s h
    | init c =>
      cases hs : s.socket with
      | some hd =>
        simpa [runOps, initSocket, hs] using ih s h
      | none =>
        have hz := h.2 hs
        simp only [runOps, initSocket, hs]
        exact ih _ ⟨by simp [hz.1], by simp⟩

theorem runOps_no_init (ops : List SocketOp) (s : SocketState)
    (h : ∀ c, SocketOp.init c ∉ ops) : runOps s ops = s := by
  induction ops generalizing s with
  | nil => rfl
  | cons op rest ih =>
    cases op with
    | init c => exact absurd (List.mem_cons_self _ _) (h c)
    | use => exact ih s (fun c hc => h c (List.mem_cons_of_mem _ hc))

end Doppio

namespace Doppio

/-! ## Claim theorems -/

set_option maxRecDepth 10000 in
/-- Claim C1: in every standalone environment in which the host configuration
file is absent, the production build fails, and the error message references
both the missing configuration file path and the socket module src/socket.js
that imports it. -/
theorem C1_standalone_build_fails (env : BuildEnv)
    (habs : env.present socketConfigPath = false) :
    ∃ msg, runBuild env = .error msg ∧
      mentions msg socketConfigPath ∧ mentions msg "src/socket.js" := by
  have hrun : runBuild env =
      .error ("Could not resolve \"" ++ socketConfigPath ++ "\" from src/socket.js") := by
    simp [runBuild, habs]
  exact ⟨_, hrun, by decide, by decide⟩

/-- Witness for C1 at the empty standalone environment. -/
theorem C1_standalone_build_fails_witness :
    emptyEnv.present socketConfigPath = false ∧
    ∃ msg, runBuild emptyEnv = .error msg ∧
      mentions msg socketConfigPath ∧ mentions msg "src/socket.js" :=
  ⟨rfl, C1_standalone_build_fails emptyEnv rfl⟩

/-- Claim C2: a `useSocket()` call not preceded by any `initSocket` call in the
same process finds no valid connection handle: it returns `none` (undefined). -/
theorem C2_useSocket_without_init (ops : List SocketOp)
    (h : ∀ c, SocketOp.init c ∉ ops) :
    useSocket (runOps initialSocketState ops) = none := by
  rw [runOps_no_init ops initialSocketState h]
  rfl

/-- Witness for C2 on a trace of two plain `useSocket` calls. -/
theorem C2_useSocket_without_init_witness :
    (∀ c, SocketOp.init c ∉ [SocketOp.use, SocketOp.use]) ∧
    useSocket (runOps initialSocketState [SocketOp.use, SocketOp.use]) = none :=
  ⟨by intro c; simp, C2_useSocket_without_init [SocketOp.use, SocketOp.use] (by intro c; simp)⟩

/-- Claim C3: in every reachable state at most one socket handle was ever
constructed, a handle once present is the very object every later request
returns, and the loaded session configuration is never mutated after
initialization. -/
theorem C3_singleton_socket (ops more : List SocketOp) :
    (runOps initialSocketState ops).created ≤ 1 ∧
    (∀ h, (runOps initialSocketState ops).socket = some h →
      useSocket (runOps (runOps initialSocketState ops) more) = some h) ∧
    (∀ c, (runOps initialSocketState ops).loadedConfig = some c →
      (runOps (runOps initialSocketState ops) more).loadedConfig = some c) := by
  have inv := socketInv_runOps ops initialSocketState socketInv_initial
  refine ⟨inv.1, ?_, ?_⟩
  · intro h hs
    rw [runOps_socket_stable more _ h hs]
    exact hs
  · intro c hc
    cases hsock : (runOps initialSocketState ops).socket with
    | none =>
      have := (inv.2 hsock).2
      rw [this] at hc
      exact absurd hc (by simp)
    | some h =>
      rw [runOps_socket_stable more _ h hsock]
      exact hc

/-- Witness for C3: one initialization followed by one use. -/
theorem C3_singleton_socket_witness :
    (runOps initialSocketState [SocketOp.init sampleConfig]).created ≤ 1 ∧
    useSocket (runOps (runOps initialSocketState [SocketOp.init sampleConfig]) [SocketOp.use]) =
      some ⟨sampleConfig, 0⟩ ∧
    (runOps (runOps initialSocketState [SocketOp.init sampleConfig])
      [SocketOp.use]).loadedConfig = some sampleConfig :=
  ⟨(C3_singleton_socket [SocketOp.init sampleConfig] [SocketOp.use]).1,
   (C3_singleton_socket [SocketOp.init sampleConfig] [SocketOp.use]).2.1 ⟨sampleConfig, 0⟩ rfl,
   (C3_singleton_socket [SocketOp.init sampleConfig] [SocketOp.use]).2.2 sampleConfig rfl⟩

/-- Claim C4: the route table maps `/` to the Home page and `/login` to the
Login page, and no other path has a route. -/
theorem C4_route_table :
    matchRoute "/" = some Page.home ∧ matchRoute "/login" = some Page.login ∧
    ∀ p, p ≠ "/" → p ≠ "/login" → matchRoute p = none := by
  refine ⟨rfl, rfl, ?_⟩
  intro p h1 h2
  have h1' : ¬ ("/" = p) := fun e => h1 e.symm
  have h2' : ¬ ("/login" = p) := fun e => h2 e.symm
  simp [matchRoute, routes, List.find?, h1', h2']

/-- Witness for C4 at a path outside the route table. -/
theorem C4_route_table_witness :
    ("/about" ≠ "/") ∧ ("/about" ≠ "/login") ∧ matchRoute "/about" = none :=
  ⟨by decide, by decide, C4_route_table.2.2 "/about" (by decide) (by decide)⟩

/-- Claim C5: the declared ranges of the bundler plugin and the UI framework
plugin are major-version aligned: the compatibility check extracts major 5 from
each declared range after stripping the leading caret, and accepts the pair. -/
theorem C5_declared_ranges_compatible :
    semverMajor declaredViteRange = some 5 ∧
    semverMajor declaredVuePluginRange = some 5 ∧
    validatePluginCompat declaredViteRange declaredVuePluginRange = .ok () :=
  ⟨rfl, rfl, rfl⟩

set_option maxRecDepth 10000 in
/-- Claim C6: the socket module references exactly the fixed relative path
`../../../../sites/common_site_config.json` as the location of the host
configuration file; the build outcome depends on the environment only through
the presence of that path, and its absence makes the standalone build fail. -/
theorem C6_socket_config_path :
    socketConfigPath = "../../../../sites/common_site_config.json" ∧
    (∀ env1 env2 : BuildEnv,
      env1.present socketConfigPath = env2.present socketConfigPath →
      runBuild env1 = runBuild env2) ∧
    (∀ env : BuildEnv, env.present socketConfigPath = false →
      ∃ msg, runBuild env = .error msg ∧ mentions msg socketConfigPath) := by
  refine ⟨rfl, ?_, ?_⟩
  · intro e1 e2 h
    unfold runBuild
    rw [h]
  · intro env habs
    have hrun : runBuild env =
        .error ("Could not resolve \"" ++ socketConfigPath ++ "\" from src/socket.js") := by
      simp [runBuild, habs]
    exact ⟨_, hrun, by decide⟩

/-- Witness for C6: a host deployment and a deployment holding only the
configuration file agree on the build outcome, and the empty deployment fails. -/
theorem C6_socket_config_path_witness :
    (fullEnv.present socketConfigPath =
      (BuildEnv.mk fun p => p = socketConfigPath).present socketConfigPath) ∧
    runBuild fullEnv = runBuild (BuildEnv.mk fun p => p = socketConfigPath) ∧
    (emptyEnv.present socketConfigPath = false) ∧
    (∃ msg, runBuild emptyEnv = .error msg ∧ mentions msg socketConfigPath) :=
  ⟨by simp [fullEnv],
   C6_socket_config_path.2.1 fullEnv (BuildEnv.mk fun p => p = socketConfigPath) (by simp [fullEnv]),
   rfl, C6_socket_config_path.2.2 emptyEnv rfl⟩

/-- Claim C7: in every environment where the host configuration file is
present, the production build succeeds and places its output under the
configured output directory `../<app-name>/public/frontend`. -/
theorem C7_build_succeeds (env : BuildEnv)
    (hp : env.present socketConfigPath = true) :
    runBuild env = .ok ⟨outputDir⟩ ∧ outputDir = "../<app-name>/public/frontend" := by
  constructor
  · simp [runBuild, hp]
  · rfl

/-- Witness for C7 at the full host deployment. -/
theorem C7_build_succeeds_witness :
    fullEnv.present socketConfigPath = true ∧
    runBuild fullEnv = .ok ⟨outputDir⟩ ∧ outputDir = "../<app-name>/public/frontend" :=
  ⟨rfl, C7_build_succeeds fullEnv rfl⟩

/-- Claim C8: the specific-error test performs its assertions only inside the
catch branch, so every run in which the build command succeeds passes the test
vacuously, whatever artifact the build produced. -/
theorem C8_specific_error_test_vacuous (out : BuildOutput) :
    specificErrorTest (Except.ok out) = TestOutcome.passed := rfl

/-- Claim C9: after the build-process suite completes, package.json holds
byte-for-byte the content saved in beforeAll, and the build output path does
not exist, whatever the test body did to the file system. -/
theorem C9_suite_restores_workspace (fs : FS) (body : FS → FS) (c : String)
    (hpkg : fs packageJsonPath = some c) :
    ∃ fs1, runSuite fs body = some fs1 ∧
      fs1 packageJsonPath = some c ∧ fs1 buildOutputPath = none := by
  refine ⟨afterAllHook (body fs) c, ?_, ?_, ?_⟩
  · simp [runSuite, beforeAllHook, hpkg]
  · simp [afterAllHook, fsWrite]
  · show (afterAllHook (body fs) c) buildOutputPath = none
    have hne : ¬ (buildOutputPath = packageJsonPath) := by decide
    unfold afterAllHook fsWrite
    simp only [hne, if_false]
    by_cases h : fsExists (body fs) buildOutputPath = true
    · simp [h, fsRemove]
    · simp only [h, if_false]
      have : ((body fs) buildOutputPath).isSome = false := by
        simpa [fsExists] using h
      exact Option.not_isSome_iff_eq_none.mp (by simp [this])

/-- Witness for C9: a one-file file system and an identity test body. -/
theorem C9_suite_restores_workspace_witness :
    sampleFS packageJsonPath = some "original content" ∧
    ∃ fs1, runSuite sampleFS id = some fs1 ∧
      fs1 packageJsonPath = some "original content" ∧ fs1 buildOutputPath = none :=
  ⟨by simp [sampleFS], C9_suite_restores_workspace sampleFS id "original content"
    (by simp [sampleFS])⟩

/-- Claim C10: once both ranges parse, the plugin compatibility check throws in
exactly one case, a vite major of at least 5 paired with a plugin major below
5, and accepts every other pair of parsed majors. -/
theorem C10_compat_throws_iff (vr pr : String) (v p : Nat)
    (hv : semverMajor vr = some v) (hp : semverMajor pr = some p) :
    ((∃ msg, validatePluginCompat vr pr = .error msg) ↔ (5 ≤ v ∧ p < 5)) ∧
    (validatePluginCompat vr pr = .ok () ↔ ¬ (5 ≤ v ∧ p < 5)) := by
  unfold validatePluginCompat
  rw [hv, hp]
  by_cases h : 5 ≤ v ∧ p < 5
  · simp [h]
  · simp [h]

/-- Witness for C10: vite major 5 with plugin major 4 throws; the theorem is
applied at those parsed ranges. -/
theorem C10_compat_throws_iff_witness :
    semverMajor "^5.0.0" = some 5 ∧ semverMajor "~4.2.0" = some 4 ∧
    ((∃ msg, validatePluginCompat "^5.0.0" "~4.2.0" = .error msg) ↔ (5 ≤ 5 ∧ 4 < 5)) ∧
    (validatePluginCompat "^5.0.0" "~4.2.0" = .ok () ↔ ¬ (5 ≤ 5 ∧ 4 < 5)) :=
  ⟨rfl, rfl, C10_compat_throws_iff "^5.0.0" "~4.2.0" 5 4 rfl rfl⟩

end Doppio
